import Mathlib

/-!
Shallow embedding of `gerrit_clone.clone_utils` and `gerrit_clone.git_utils`
(from the gerrit-clone-action repository) together with proofs about the
transfer-error classifier, the clone command builder and the repository
query operations.

Python strings are modelled as Lean `String`; `s.lower()` is modelled by
mapping `Char.toLower` over the characters (all patterns are ASCII);
`needle in haystack` is modelled by an executable substring check.
-/

/-- Membership test: does the first list occur as a leading segment of the second?
Models the position-wise comparison used by the substring check below. -/
def isPre : List Char → List Char → Bool
  | [], _ => true
  | _ :: _, [] => false
  | a :: as, b :: bs => a == b && isPre as bs

/-- Does `n` occur as a contiguous segment of `h` (at any position)?
Models Python's `n in h` on strings. -/
def subAt : List Char → List Char → Bool
  | n, [] => isPre n []
  | n, b :: bs => isPre n (b :: bs) || subAt n bs

/-- Python `needle in haystack` for strings. -/
def strIn (needle haystack : String) : Bool :=
  subAt needle.data haystack.data

/-- Python `s.lower()` (ASCII case folding, which covers every pattern used). -/
def lowerStr (s : String) : String :=
  String.mk (s.data.map Char.toLower)

/-- Python whitespace characters recognised by `str.strip()`. -/
def pyWs (c : Char) : Bool :=
  c = ' ' || c = '\t' || c = '\n' || c = '\r' || c = '\x0b' || c = '\x0c'

/-- Python `s.strip()`: drop leading and trailing whitespace. -/
def pyStrip (s : String) : String :=
  String.mk (((s.data.dropWhile pyWs).reverse.dropWhile pyWs).reverse)

/-- Modelled from the spec: `Config` lives in `gerrit_clone.models`, which is not
part of the sources at hand; per the spec it carries a mirror flag (default
true), an optional depth and an optional branch, which are the only fields
`build_base_clone_command` reads. -/
structure Config where
  mirror : Bool
  depth : Option Int
  branch : Option String

/-- `clone_utils.build_base_clone_command`: build the git clone argument vector.
The target path is passed already rendered as a string (`str(target_path)`). -/
def build_base_clone_command (clone_url : String) (target_path : String)
    (config : Config) : List String :=
  let cmd := ["git", "clone"]
  let cmd := cmd ++ ["--no-hardlinks", "--quiet"]
  let cmd :=
    if config.mirror then
      cmd ++ ["--mirror"]
    else
      let cmd :=
        match config.depth with
        | some d => cmd ++ ["--depth", toString d]
        | none => cmd
      match config.branch with
      | some b => cmd ++ ["--branch", b]
      | none => cmd
  let cmd := cmd ++ [clone_url]
  cmd ++ [target_path]

/-- The `retryable_patterns` list of `clone_utils.is_retryable_git_error`. -/
def retryable_patterns : List String :=
  [ "connection timeout",
    "connection timed out",
    "connect to host",
    "connection refused",
    "connection reset",
    "broken pipe",
    "network is unreachable",
    "temporary failure in name resolution",
    "could not resolve hostname",
    "name or service not known",
    "early eof",
    "the remote end hung up unexpectedly",
    "transfer closed",
    "rpc failed",
    "fetch-pack: unable to spawn",
    "service temporarily unavailable",
    "502 bad gateway",
    "503 service unavailable",
    "504 gateway timeout",
    "ssh: connect to host",
    "kex_exchange_identification",
    "pack-objects died",
    "index-pack failed",
    "fatal: protocol error: bad pack header" ]

/-- The `non_retryable_patterns` list of `clone_utils.is_retryable_git_error`. -/
def non_retryable_patterns : List String :=
  [ "permission denied",
    "authentication failed",
    "access denied",
    "repository not found",
    "does not exist",
    "host key verification failed",
    "could not read from remote repository",
    "fatal: repository",
    "invalid credentials",
    "bad credentials" ]

/-- The `inspection_patterns` list of `clone_utils.should_cleanup_on_clone_error`. -/
def inspection_patterns : List String :=
  [ "permission denied",
    "authentication failed",
    "access denied",
    "host key verification failed" ]

/-- The authorization/credential/host-key sublist of `non_retryable_patterns`
(used to state spec claims that quantify over that class of patterns). -/
def auth_patterns : List String :=
  [ "permission denied",
    "authentication failed",
    "access denied",
    "host key verification failed",
    "invalid credentials",
    "bad credentials" ]

/-- `clone_utils.is_retryable_git_error`: the `for`/`return` loops over the two
pattern lists are the two `List.any` tests, tried in the same order. -/
def is_retryable_git_error (error_output : String) : Bool :=
  if error_output = "" then false
  else
    let error_lower := lowerStr error_output
    if retryable_patterns.any (fun p => strIn p error_lower) then true
    else if non_retryable_patterns.any (fun p => strIn p error_lower) then false
    else false

/-- `clone_utils.should_cleanup_on_clone_error`. -/
def should_cleanup_on_clone_error (error_output : String) : Bool :=
  if error_output = "" then true
  else
    let error_lower := lowerStr error_output
    inspection_patterns.all (fun p => !(strIn p error_lower))

/-- The first capture of the regex search `port (\d+)` over the character list:
the first position where the literal `port ` is followed by at least one digit
yields the maximal digit run there. -/
def findPortAux : List Char → Option String
  | [] => none
  | c :: rest =>
    if isPre ("port ".data) (c :: rest) then
      let ds := ((c :: rest).drop 5).takeWhile Char.isDigit
      if ds.isEmpty then findPortAux rest else some (String.mk ds)
    else findPortAux rest

/-- `re.search(r"port (\d+)", s)`: the captured digit group, if any. -/
def findPort (s : String) : Option String :=
  findPortAux s.data

/-- `clone_utils.analyze_git_clone_error`: category-by-category diagnostic
message builder. Python `if host:` is truthy only for a present, non-empty
host, hence the nested emptiness tests. -/
def analyze_git_clone_error (error_output : String) (project_name : String)
    (host : Option String) : String :=
  if error_output = "" then "Clone failed with no error output"
  else
    let error_lower := lowerStr error_output
    if strIn "permission denied" error_lower && strIn "publickey" error_lower then
      let msg := "SSH authentication failed for " ++ project_name ++ "\n"
        ++ "Possible causes:\n"
        ++ "  • SSH key not added to ssh-agent (run: ssh-add <key-path>)\n"
        ++ "  • SSH key not authorized on the server\n"
        ++ "  • Wrong SSH user (try setting ssh_user in config)\n"
      match host with
      | some h => if h = "" then msg else msg ++ "\nTest SSH access: ssh -T " ++ h
      | none => msg
    else if strIn "host key verification failed" error_lower then
      let msg := "SSH host key verification failed for " ++ project_name ++ "\n"
        ++ "Possible causes:\n"
        ++ "  • Host not in known_hosts file\n"
        ++ "  • Host key has changed (security risk!)\n"
      match host with
      | some h =>
        if h = "" then msg
        else msg ++ "\nAdd host key: ssh-keyscan " ++ h ++ " >> ~/.ssh/known_hosts\n"
          ++ "Or disable strict checking (less secure): ssh -o StrictHostKeyChecking=no "
          ++ h
      | none => msg
    else if strIn "connection refused" error_lower then
      let port_match :=
        if strIn "port" error_lower then findPort error_lower else none
      let msg := "Connection refused for " ++ project_name ++ "\n"
        ++ "Possible causes:\n"
        ++ "  • SSH service is not running on the server\n"
      let msg :=
        match port_match with
        | some pm =>
          if pm = "" then msg
          else msg ++ "  • Wrong port (currently using " ++ pm ++ ")\n"
        | none => msg
      match host with
      | some h =>
        if h = "" then msg
        else msg ++ "  • Firewall blocking access to " ++ h ++ "\n"
          ++ "\nVerify SSH port: nmap -p 22,29418 " ++ h
      | none => msg
    else if strIn "could not resolve hostname" error_lower
        || strIn "name or service not known" error_lower then
      let msg := "DNS resolution failed for " ++ project_name ++ "\n"
        ++ "Possible causes:\n"
        ++ "  • Hostname is incorrect\n"
        ++ "  • DNS server is unavailable\n"
        ++ "  • Network connectivity issue\n"
      match host with
      | some h => if h = "" then msg else msg ++ "\nTest DNS: nslookup " ++ h
      | none => msg
    else if strIn "repository not found" error_lower
        || strIn "does not exist" error_lower then
      "Repository not found: " ++ project_name ++ "\n"
        ++ "Possible causes:\n"
        ++ "  • Repository name is incorrect\n"
        ++ "  • Repository has been deleted or moved\n"
        ++ "  • You don\x27t have permission to access this repository"
    else if strIn "timeout" error_lower || strIn "timed out" error_lower then
      "Connection timeout for " ++ project_name ++ "\n"
        ++ "Possible causes:\n"
        ++ "  • Network is slow or unstable\n"
        ++ "  • Server is overloaded\n"
        ++ "  • Repository is very large\n"
        ++ "\nConsider increasing clone_timeout in config"
    else if ["network", "connection", "eof", "hung up"].any
        (fun p => strIn p error_lower) then
      "Network error cloning " ++ project_name ++ ": " ++ pyStrip error_output
    else
      pyStrip error_output

/-- Outcome of one `subprocess.run` invocation, as the `git_utils` handlers
distinguish them: a clean exit with captured stdout, a nonzero exit
(`CalledProcessError` under `check=True`), a timeout, or any other exception. -/
inductive SubpOutcome where
  | success (stdout : String)
  | calledProcessError
  | timeoutExpired
  | otherException
deriving DecidableEq

/-- The filesystem/subprocess facts a `git_utils` call can observe about one
repository path: `str(repo_path)`, `repo_path.exists()`, `repo_path.is_dir()`,
`(repo_path / name).exists()` for child entries, and the outcome of the
`git rev-parse --is-bare-repository` fallback probe. -/
structure FS where
  path : String
  path_exists : Bool
  is_dir : Bool
  entry_exists : String → Bool
  rev_parse_bare : SubpOutcome

/-- The `bare_markers` list of `git_utils.is_git_repository`. -/
def bare_markers : List String :=
  ["HEAD", "objects", "refs", "config"]

/-- `git_utils.is_git_repository`: regular repo via `.git`, bare repo via
filesystem markers, then the `rev-parse --is-bare-repository` fallback
(`check=False`: a nonzero exit is a normal return whose condition fails,
and any exception is swallowed as `false`). -/
def is_git_repository (fs : FS) : Bool :=
  if !fs.path_exists then false
  else if !fs.is_dir then false
  else if fs.entry_exists ".git" then true
  else if bare_markers.all fs.entry_exists then true
  else
    match fs.rev_parse_bare with
    | .success out => pyStrip out == "true"
    | _ => false

/-- The exceptions the `git_utils` query operations raise themselves. -/
inductive GitError where
  | fileNotFoundError (msg : String)
  | valueError (msg : String)
deriving DecidableEq

/-- `git_utils.get_current_commit_sha`: guard clauses raise, then
`git rev-parse HEAD` output is stripped (`None` when blank); every
subprocess failure is converted to `None`. -/
def get_current_commit_sha (fs : FS) (run : SubpOutcome) :
    Except GitError (Option String) :=
  if !fs.path_exists then
    .error (.fileNotFoundError ("Repository path does not exist: " ++ fs.path))
  else if !(is_git_repository fs) then
    .error (.valueError ("Not a git repository: " ++ fs.path))
  else
    match run with
    | .success out =>
      let sha := pyStrip out
      .ok (if sha = "" then none else some sha)
    | .calledProcessError => .ok none
    | .timeoutExpired => .ok none
    | .otherException => .ok none

/-- `git_utils.get_current_branch`: same guards, `git symbolic-ref --short HEAD`
output stripped (`None` when blank); every subprocess failure becomes `None`. -/
def get_current_branch (fs : FS) (run : SubpOutcome) :
    Except GitError (Option String) :=
  if !fs.path_exists then
    .error (.fileNotFoundError ("Repository path does not exist: " ++ fs.path))
  else if !(is_git_repository fs) then
    .error (.valueError ("Not a git repository: " ++ fs.path))
  else
    match run with
    | .success out =>
      let branch := pyStrip out
      .ok (if branch = "" then none else some branch)
    | .calledProcessError => .ok none
    | .timeoutExpired => .ok none
    | .otherException => .ok none

/-- `git_utils.is_repo_dirty`: same guards, dirty iff `git status --porcelain`
printed anything; every subprocess failure becomes `False`. -/
def is_repo_dirty (fs : FS) (run : SubpOutcome) : Except GitError Bool :=
  if !fs.path_exists then
    .error (.fileNotFoundError ("Repository path does not exist: " ++ fs.path))
  else if !(is_git_repository fs) then
    .error (.valueError ("Not a git repository: " ++ fs.path))
  else
    match run with
    | .success out => .ok (!(pyStrip out = ""))
    | .calledProcessError => .ok false
    | .timeoutExpired => .ok false
    | .otherException => .ok false

/-- `git_utils.get_remote_url`: same guards, `git remote get-url <remote>`
output stripped (`None` when blank); every subprocess failure becomes `None`. -/
def get_remote_url (fs : FS) (remote : String) (run : SubpOutcome) :
    Except GitError (Option String) :=
  if !fs.path_exists then
    .error (.fileNotFoundError ("Repository path does not exist: " ++ fs.path))
  else if !(is_git_repository fs) then
    .error (.valueError ("Not a git repository: " ++ fs.path))
  else
    match run with
    | .success out =>
      let url := pyStrip out
      .ok (if url = "" then none else some url)
    | .calledProcessError => .ok none
    | .timeoutExpired => .ok none
    | .otherException => .ok none

example : is_retryable_git_error "Connection timeout" = true := by decide
example : is_retryable_git_error "Permission denied (publickey)" = false := by decide
example : is_retryable_git_error "Permission denied: connection refused" = true := by decide
example : should_cleanup_on_clone_error "Repository not found" = true := by decide
example : should_cleanup_on_clone_error "Invalid credentials" = true := by decide
example : should_cleanup_on_clone_error "Access denied" = false := by decide
example : build_base_clone_command "u" "p" ⟨true, some 5, some "main"⟩ =
    ["git", "clone", "--no-hardlinks", "--quiet", "--mirror", "u", "p"] := by decide
example : build_base_clone_command "u" "p" ⟨false, some 5, some "main"⟩ =
    ["git", "clone", "--no-hardlinks", "--quiet", "--depth", "5", "--branch", "main",
      "u", "p"] := by decide

/-! ### Helper lemmas -/

theorem subAt_nil_of_ne (n : List Char) (h : n ≠ []) : subAt n [] = false := by
  cases n with
  | nil => exact absurd rfl h
  | cons a as => rfl

theorem strIn_blank (p : String) (hp : p ≠ "") : strIn p "" = false := by
  have hd : p.data ≠ [] := fun hnil => hp (String.ext hnil)
  simpa [strIn] using subAt_nil_of_ne p.data hd

theorem lowerStr_blank : lowerStr "" = "" := rfl

theorem ne_blank_of_strIn (p s : String) (hp : p ≠ "")
    (h : strIn p (lowerStr s) = true) : s ≠ "" := by
  intro hs
  rw [hs, lowerStr_blank, strIn_blank p hp] at h
  cases h

theorem retryable_patterns_ne_blank : ∀ p ∈ retryable_patterns, p ≠ "" := by decide

theorem inspection_patterns_ne_blank : ∀ p ∈ inspection_patterns, p ≠ "" := by decide

theorem inspection_sub_auth : ∀ p ∈ inspection_patterns, p ∈ auth_patterns := by decide

theorem any_false_of_all {l : List String} {f : String → Bool}
    (h : ∀ p ∈ l, f p = false) : l.any f = false := by
  rw [List.any_eq_false]
  intro x hx
  rw [h x hx]
  simp

/-! ### Claim theorems -/

/-- C7: on empty error text the classifiers give their defaults:
`should_cleanup_on_clone_error ""` is `true` and `is_retryable_git_error ""`
is `false`. -/
theorem C7_empty_text_defaults :
    should_cleanup_on_clone_error "" = true ∧ is_retryable_git_error "" = false := by
  decide

/-- C6: an error text in which none of the retryable patterns and none of the
non-retryable patterns occur is classified non-retryable. -/
theorem C6_unknown_error_not_retryable (s : String)
    (h1 : ∀ p ∈ retryable_patterns, strIn p (lowerStr s) = false)
    (h2 : ∀ p ∈ non_retryable_patterns, strIn p (lowerStr s) = false) :
    is_retryable_git_error s = false := by
  by_cases hs : s = ""
  · simp [is_retryable_git_error, hs]
  · simp [is_retryable_git_error, hs, any_false_of_all h1, any_false_of_all h2]

/-- C6 witness: at the unknown error text of the unit tests. -/
theorem C6_witness :
    is_retryable_git_error "Some unknown error occurred" = false := by
  exact C6_unknown_error_not_retryable "Some unknown error occurred"
    (by decide) (by decide)

/-- C3: an error text containing a transient/network pattern and no
authorization/credential/host-key pattern is retryable and its partial clone
directory is cleaned up. -/
theorem C3_transient_retryable_and_cleanup (s : String)
    (hre : ∃ p ∈ retryable_patterns, strIn p (lowerStr s) = true)
    (hnoauth : ∀ q ∈ auth_patterns, strIn q (lowerStr s) = false) :
    is_retryable_git_error s = true ∧ should_cleanup_on_clone_error s = true := by
  obtain ⟨p, hmem, hp⟩ := hre
  have hs : s ≠ "" := ne_blank_of_strIn p s (retryable_patterns_ne_blank p hmem) hp
  have hany : retryable_patterns.any (fun q => strIn q (lowerStr s)) = true :=
    List.any_eq_true.mpr ⟨p, hmem, hp⟩
  have hall : inspection_patterns.all (fun q => !(strIn q (lowerStr s))) = true := by
    rw [List.all_eq_true]
    intro q hq
    rw [hnoauth q (inspection_sub_auth q hq)]
    rfl
  constructor
  · simp [is_retryable_git_error, hs, hany]
  · simp only [should_cleanup_on_clone_error, if_neg hs]
    exact hall

/-- C3 witness: a connection-refused error is retryable and cleaned up. -/
theorem C3_witness :
    is_retryable_git_error "ssh: connect to host: Connection refused" = true ∧
      should_cleanup_on_clone_error "ssh: connect to host: Connection refused" = true := by
  exact C3_transient_retryable_and_cleanup "ssh: connect to host: Connection refused"
    ⟨"connection refused", by decide, by decide⟩ (by decide)

/-- C1 counterexample: the text below contains the credential pattern
`invalid credentials` together with the retryable substring
`connection refused`, yet `is_retryable_git_error` returns `true` (the
retryable pattern loop runs first and returns immediately) and
`should_cleanup_on_clone_error` returns `true` (`invalid credentials` is not
among the four inspection patterns) — the claim predicted `false` for both. -/
theorem C1_counterexample :
    strIn "invalid credentials"
        (lowerStr "Invalid credentials: connection refused") = true ∧
      is_retryable_git_error "Invalid credentials: connection refused" = true ∧
      should_cleanup_on_clone_error "Invalid credentials: connection refused" = true := by
  decide

/-- C1 (amended): for an error text containing an authorization/credential/
host-key pattern, the classification is non-retryable if and only if no
retryable pattern occurs in the text (the retryable loop is checked first and
wins on co-occurrence); and the clone directory is preserved (cleanup
suppressed) exactly when one of the four inspection patterns (`permission
denied`, `authentication failed`, `access denied`, `host key verification
failed`) occurs, regardless of any co-occurring retryable substring —
`invalid credentials`/`bad credentials` do not suppress cleanup. -/
theorem C1_auth_overrides_only_without_transient (s : String)
    (hauth : ∃ p ∈ auth_patterns, strIn p (lowerStr s) = true) :
    (is_retryable_git_error s = false ↔
      ∀ q ∈ retryable_patterns, strIn q (lowerStr s) = false) ∧
      (should_cleanup_on_clone_error s = false ↔
        ∃ p ∈ inspection_patterns, strIn p (lowerStr s) = true) := by
  constructor
  · constructor
    · intro hf q hq
      cases hqv : strIn q (lowerStr s) with
      | false => rfl
      | true =>
        have hs : s ≠ "" :=
          ne_blank_of_strIn q s (retryable_patterns_ne_blank q hq) hqv
        have hany : retryable_patterns.any (fun x => strIn x (lowerStr s)) = true :=
          List.any_eq_true.mpr ⟨q, hq, hqv⟩
        have htrue : is_retryable_git_error s = true := by
          simp [is_retryable_git_error, hs, hany]
        rw [htrue] at hf
        simp at hf
    · intro hall
      by_cases hs : s = ""
      · simp [is_retryable_git_error, hs]
      · simp [is_retryable_git_error, hs, any_false_of_all hall]
  · constructor
    · intro hf
      have hs : s ≠ "" := by
        intro he
        rw [he] at hf
        simp [should_cleanup_on_clone_error] at hf
      simp only [should_cleanup_on_clone_error, if_neg hs] at hf
      by_contra hnex
      push_neg at hnex
      have hall : inspection_patterns.all (fun p => !(strIn p (lowerStr s))) = true := by
        rw [List.all_eq_true]
        intro q hq
        cases hv : strIn q (lowerStr s) with
        | false => rfl
        | true => exact absurd hv (hnex q hq)
      rw [hall] at hf
      simp at hf
    · rintro ⟨p, hmem, hp⟩
      have hs : s ≠ "" := ne_blank_of_strIn p s (inspection_patterns_ne_blank p hmem) hp
      simp only [should_cleanup_on_clone_error, if_neg hs]
      apply Bool.eq_false_iff.mpr
      intro hall
      have := List.all_eq_true.mp hall p hmem
      rw [hp] at this
      simp at this

/-- C1 witness: `Permission denied: connection refused` carries both an
inspection pattern and a retryable substring — cleanup is suppressed even on
this co-occurrence, while the co-occurring retryable pattern makes the text
retryable. -/
theorem C1_witness :
    should_cleanup_on_clone_error "Permission denied: connection refused" = false ∧
      is_retryable_git_error "Permission denied: connection refused" = true := by
  have h := C1_auth_overrides_only_without_transient
    "Permission denied: connection refused"
    ⟨"permission denied", by decide, by decide⟩
  refine ⟨h.2.mpr ⟨"permission denied", by decide, by decide⟩, ?_⟩
  cases hb : is_retryable_git_error "Permission denied: connection refused" with
  | true => rfl
  | false =>
    have hq := h.1.mp hb "connection refused" (by decide)
    have ht : strIn "connection refused"
        (lowerStr "Permission denied: connection refused") = true := by decide
    rw [hq] at ht
    simp at ht

/-- C2 counterexample: `Repository not found` matches an existence pattern and
no transient pattern, and `is_retryable_git_error` indeed returns `false`, but
`should_cleanup_on_clone_error` returns `true` — the directory is removed, not
preserved as the claim states (the unit tests assert this cleanup too). -/
theorem C2_counterexample :
    retryable_patterns.all
        (fun q => !(strIn q (lowerStr "Repository not found"))) = true ∧
      is_retryable_git_error "Repository not found" = false ∧
      should_cleanup_on_clone_error "Repository not found" = true := by
  decide

/-- C2 (amended): an error text matching an existence pattern (`repository not
found` or `does not exist`) and no transient pattern is non-retryable, and the
local directory is cleaned up (not preserved) as long as no
authorization/credential/host-key inspection pattern also occurs. -/
theorem C2_existence_not_retryable_but_cleaned (s : String)
    (hex : strIn "repository not found" (lowerStr s) = true ∨
      strIn "does not exist" (lowerStr s) = true)
    (hnotr : ∀ q ∈ retryable_patterns, strIn q (lowerStr s) = false)
    (hnoinsp : ∀ q ∈ inspection_patterns, strIn q (lowerStr s) = false) :
    is_retryable_git_error s = false ∧ should_cleanup_on_clone_error s = true := by
  constructor
  · by_cases hs : s = ""
    · simp [is_retryable_git_error, hs]
    · simp [is_retryable_git_error, hs, any_false_of_all hnotr]
  · by_cases hs : s = ""
    · simp [should_cleanup_on_clone_error, hs]
    · simp only [should_cleanup_on_clone_error, if_neg hs]
      rw [List.all_eq_true]
      intro q hq
      rw [hnoinsp q hq]
      rfl

/-- C2 witness: at the existence error text of the unit tests. -/
theorem C2_witness :
    is_retryable_git_error "fatal: repository on server does not exist" = false ∧
      should_cleanup_on_clone_error "fatal: repository on server does not exist" = true := by
  exact C2_existence_not_retryable_but_cleaned
    "fatal: repository on server does not exist"
    (Or.inr (by decide)) (by decide) (by decide)

/-- C4: with `mirror = true` the built command carries `--mirror` and,
whatever depth and branch are configured, neither `--depth` nor `--branch`
(provided the URL and path arguments are not themselves those flag strings). -/
theorem C4_mirror_omits_depth_branch (url path : String) (cfg : Config)
    (hm : cfg.mirror = true)
    (hu : url ≠ "--depth" ∧ url ≠ "--branch")
    (hp : path ≠ "--depth" ∧ path ≠ "--branch") :
    "--mirror" ∈ build_base_clone_command url path cfg ∧
      "--depth" ∉ build_base_clone_command url path cfg ∧
      "--branch" ∉ build_base_clone_command url path cfg := by
  refine ⟨?_, ?_, ?_⟩ <;>
    simp [build_base_clone_command, hm, Ne.symm hu.1, Ne.symm hu.2,
      Ne.symm hp.1, Ne.symm hp.2]

/-- C4 witness: mirror mode with `depth = 5` and a branch configured. -/
theorem C4_witness :
    "--mirror" ∈ build_base_clone_command "ssh://gerrit.example.org:29418/project"
        "/tmp/repos/project" ⟨true, some 5, some "main"⟩ ∧
      "--depth" ∉ build_base_clone_command "ssh://gerrit.example.org:29418/project"
        "/tmp/repos/project" ⟨true, some 5, some "main"⟩ ∧
      "--branch" ∉ build_base_clone_command "ssh://gerrit.example.org:29418/project"
        "/tmp/repos/project" ⟨true, some 5, some "main"⟩ := by
  exact C4_mirror_omits_depth_branch "ssh://gerrit.example.org:29418/project"
    "/tmp/repos/project" ⟨true, some 5, some "main"⟩ rfl
    (by constructor <;> decide) (by constructor <;> decide)

/-- The `--depth <n>` argument pair appended in non-mirror mode, present
exactly when a depth is configured. -/
def depth_args (cfg : Config) : List String :=
  match cfg.depth with
  | some d => ["--depth", toString d]
  | none => []

/-- The `--branch <name>` argument pair appended in non-mirror mode, present
exactly when a branch is configured. -/
def branch_args (cfg : Config) : List String :=
  match cfg.branch with
  | some b => ["--branch", b]
  | none => []

/-- C5: every built command starts with `git clone --no-hardlinks --quiet`,
ends with the clone URL and the target path as its last two elements, and in
non-mirror mode the optional `--depth` pair comes before the optional
`--branch` pair, each present exactly when configured. -/
theorem C5_command_layout (url path : String) (cfg : Config) :
    (build_base_clone_command url path cfg).take 4 =
        ["git", "clone", "--no-hardlinks", "--quiet"] ∧
      (build_base_clone_command url path cfg).drop
          ((build_base_clone_command url path cfg).length - 2) = [url, path] ∧
      (cfg.mirror = false →
        build_base_clone_command url path cfg =
          ["git", "clone", "--no-hardlinks", "--quiet"] ++ depth_args cfg ++
            branch_args cfg ++ [url, path]) := by
  obtain ⟨m, d, b⟩ := cfg
  cases m <;> cases d <;> cases b <;>
    simp [build_base_clone_command, depth_args, branch_args]

/-- C5 witness: non-mirror mode with both depth and branch configured. -/
theorem C5_witness :
    (build_base_clone_command "https://github.com/org/repo.git" "/tmp/repos/repo"
          ⟨false, some 5, some "feature/test"⟩).take 4 =
        ["git", "clone", "--no-hardlinks", "--quiet"] ∧
      (build_base_clone_command "https://github.com/org/repo.git" "/tmp/repos/repo"
          ⟨false, some 5, some "feature/test"⟩).drop
          ((build_base_clone_command "https://github.com/org/repo.git"
              "/tmp/repos/repo" ⟨false, some 5, some "feature/test"⟩).length - 2) =
        ["https://github.com/org/repo.git", "/tmp/repos/repo"] ∧
      build_base_clone_command "https://github.com/org/repo.git" "/tmp/repos/repo"
          ⟨false, some 5, some "feature/test"⟩ =
        ["git", "clone", "--no-hardlinks", "--quiet"] ++
          depth_args ⟨false, some 5, some "feature/test"⟩ ++
          branch_args ⟨false, some 5, some "feature/test"⟩ ++
          ["https://github.com/org/repo.git", "/tmp/repos/repo"] := by
  have h := C5_command_layout "https://github.com/org/repo.git" "/tmp/repos/repo"
    ⟨false, some 5, some "feature/test"⟩
  exact ⟨h.1, h.2.1, h.2.2 rfl⟩

/-- C8: a non-empty error text matching none of the diagnostic categories of
`analyze_git_clone_error` is returned stripped of surrounding whitespace and
otherwise unchanged, for every project name and host argument. -/
theorem C8_unmatched_text_returned_trimmed (s project : String)
    (host : Option String) (h0 : s ≠ "")
    (h1 : (strIn "permission denied" (lowerStr s) &&
      strIn "publickey" (lowerStr s)) = false)
    (h2 : strIn "host key verification failed" (lowerStr s) = false)
    (h3 : strIn "connection refused" (lowerStr s) = false)
    (h4 : strIn "could not resolve hostname" (lowerStr s) = false)
    (h5 : strIn "name or service not known" (lowerStr s) = false)
    (h6 : strIn "repository not found" (lowerStr s) = false)
    (h7 : strIn "does not exist" (lowerStr s) = false)
    (h8 : strIn "timeout" (lowerStr s) = false)
    (h9 : strIn "timed out" (lowerStr s) = false)
    (h10 : ∀ q ∈ (["network", "connection", "eof", "hung up"] : List String),
      strIn q (lowerStr s) = false) :
    analyze_git_clone_error s project host = pyStrip s := by
  simp [analyze_git_clone_error, h0, h1, h2, h3, h4, h5, h6, h7, h8, h9,
    any_false_of_all h10]

/-- C8 witness: an uncategorised error text is echoed back trimmed. -/
theorem C8_witness :
    analyze_git_clone_error "  zzz unusual failure mode 42 \n" "test-project"
      (some "gerrit.example.org") = "zzz unusual failure mode 42" := by
  have h := C8_unmatched_text_returned_trimmed "  zzz unusual failure mode 42 \n"
    "test-project" (some "gerrit.example.org") (by decide) (by decide) (by decide)
    (by decide) (by decide) (by decide) (by decide) (by decide) (by decide)
    (by decide) (by decide)
  rw [h]
  decide

/-- Two texts differing only in letter case: their character lists agree after
case folding (the folding `str.lower()` applies). -/
def CaseVariant (s t : String) : Prop :=
  s.data.map Char.toLower = t.data.map Char.toLower

/-- C9: the classifier judgments are case-insensitive — case variants of an
error text get the same retryability and the same cleanup decision. -/
theorem C9_classification_case_insensitive (s t : String) (h : CaseVariant s t) :
    is_retryable_git_error s = is_retryable_git_error t ∧
      should_cleanup_on_clone_error s = should_cleanup_on_clone_error t := by
  have hlow : lowerStr s = lowerStr t := congrArg String.mk h
  have hemp : (s = "") ↔ (t = "") := by
    constructor <;> intro he <;> apply String.ext
    · have hmap : t.data.map Char.toLower = [] := by
        rw [← h, he]
        rfl
      simpa using hmap
    · have hmap : s.data.map Char.toLower = [] := by
        rw [h, he]
        rfl
      simpa using hmap
  by_cases hs : s = ""
  · have ht : t = "" := hemp.mp hs
    rw [hs, ht]
    exact ⟨rfl, rfl⟩
  · have ht : t ≠ "" := fun x => hs (hemp.mpr x)
    constructor <;>
      simp [is_retryable_git_error, should_cleanup_on_clone_error, hs, ht, hlow]

/-- C9 witness: a shouted connection-refused message classifies like the
lowercase one. -/
theorem C9_witness :
    is_retryable_git_error "CONNECTION Refused" =
        is_retryable_git_error "connection refused" ∧
      should_cleanup_on_clone_error "CONNECTION Refused" =
        should_cleanup_on_clone_error "connection refused" := by
  exact C9_classification_case_insensitive "CONNECTION Refused"
    "connection refused" (by unfold CaseVariant; decide)

/-- C10: the four repository-query operations share one error contract — a
missing path raises `FileNotFoundError`, an existing path that is not a git
repository raises `ValueError`, and otherwise no exception escapes: every
subprocess failure, timeout or other exception becomes the benign result
(`none`, or `false` for `is_repo_dirty`). -/
theorem C10_git_utils_error_contract (fs : FS) (r : SubpOutcome) (remote : String) :
    (fs.path_exists = false →
      get_current_commit_sha fs r =
          .error (.fileNotFoundError ("Repository path does not exist: " ++ fs.path)) ∧
        get_current_branch fs r =
          .error (.fileNotFoundError ("Repository path does not exist: " ++ fs.path)) ∧
        is_repo_dirty fs r =
          .error (.fileNotFoundError ("Repository path does not exist: " ++ fs.path)) ∧
        get_remote_url fs remote r =
          .error (.fileNotFoundError ("Repository path does not exist: " ++ fs.path))) ∧
      (fs.path_exists = true → is_git_repository fs = false →
        get_current_commit_sha fs r =
            .error (.valueError ("Not a git repository: " ++ fs.path)) ∧
          get_current_branch fs r =
            .error (.valueError ("Not a git repository: " ++ fs.path)) ∧
          is_repo_dirty fs r =
            .error (.valueError ("Not a git repository: " ++ fs.path)) ∧
          get_remote_url fs remote r =
            .error (.valueError ("Not a git repository: " ++ fs.path))) ∧
      (fs.path_exists = true → is_git_repository fs = true →
        (∃ v, get_current_commit_sha fs r = .ok v) ∧
          (∃ v, get_current_branch fs r = .ok v) ∧
          (∃ v, is_repo_dirty fs r = .ok v) ∧
          (∃ v, get_remote_url fs remote r = .ok v)) ∧
      (fs.path_exists = true → is_git_repository fs = true →
        (∀ out, r ≠ SubpOutcome.success out) →
        get_current_commit_sha fs r = .ok none ∧
          get_current_branch fs r = .ok none ∧
          is_repo_dirty fs r = .ok false ∧
          get_remote_url fs remote r = .ok none) := by
  refine ⟨?_, ?_, ?_, ?_⟩
  · intro hne
    refine ⟨?_, ?_, ?_, ?_⟩ <;>
      simp [get_current_commit_sha, get_current_branch, is_repo_dirty,
        get_remote_url, hne]
  · intro hpe hrepo
    refine ⟨?_, ?_, ?_, ?_⟩ <;>
      simp [get_current_commit_sha, get_current_branch, is_repo_dirty,
        get_remote_url, hpe, hrepo]
  · intro hpe hrepo
    have key : ∀ {α : Type} (e : Except GitError α),
        (∀ g, e ≠ .error g) → ∃ v, e = .ok v := by
      intro α e he
      cases e with
      | error g => exact absurd rfl (he g)
      | ok v => exact ⟨v, rfl⟩
    refine ⟨key _ ?_, key _ ?_, key _ ?_, key _ ?_⟩ <;>
      intro g <;>
        cases r <;>
          simp [get_current_commit_sha, get_current_branch, is_repo_dirty,
            get_remote_url, hpe, hrepo]
  · intro hpe hrepo hns
    cases r with
    | success out => exact absurd rfl (hns out)
    | calledProcessError =>
      refine ⟨?_, ?_, ?_, ?_⟩ <;>
        simp [get_current_commit_sha, get_current_branch, is_repo_dirty,
          get_remote_url, hpe, hrepo]
    | timeoutExpired =>
      refine ⟨?_, ?_, ?_, ?_⟩ <;>
        simp [get_current_commit_sha, get_current_branch, is_repo_dirty,
          get_remote_url, hpe, hrepo]
    | otherException =>
      refine ⟨?_, ?_, ?_, ?_⟩ <;>
        simp [get_current_commit_sha, get_current_branch, is_repo_dirty,
          get_remote_url, hpe, hrepo]

/-- C10 witness: a regular repository path whose `git rev-parse HEAD` call
exits nonzero yields the benign `none`/`false` results. -/
theorem C10_witness :
    get_current_commit_sha ⟨"/tmp/repos/project", true, true, fun n => n == ".git",
        SubpOutcome.otherException⟩ SubpOutcome.calledProcessError = .ok none ∧
      get_current_branch ⟨"/tmp/repos/project", true, true, fun n => n == ".git",
        SubpOutcome.otherException⟩ SubpOutcome.calledProcessError = .ok none ∧
      is_repo_dirty ⟨"/tmp/repos/project", true, true, fun n => n == ".git",
        SubpOutcome.otherException⟩ SubpOutcome.calledProcessError = .ok false ∧
      get_remote_url ⟨"/tmp/repos/project", true, true, fun n => n == ".git",
        SubpOutcome.otherException⟩ "origin" SubpOutcome.calledProcessError = .ok none := by
  have h := C10_git_utils_error_contract ⟨"/tmp/repos/project", true, true,
    fun n => n == ".git", SubpOutcome.otherException⟩ SubpOutcome.calledProcessError
    "origin"
  exact h.2.2.2 rfl rfl (fun out hc => SubpOutcome.noConfusion hc)
